import Mathlib

/-!
Shallow embedding of `tools/upload_postimages_album.py`.

The script drives a browser through the postimages.org upload form.  The
browser/DOM is external nondeterminism, so every Playwright primitive is
modelled as an oracle supplied as a parameter; a primitive that can raise
an exception returns `Except Unit a` (`.error ()` standing for any raised
exception).  A Python `try/except: pass` around a call becomes a `match`
that recovers from `.error`; a call made outside any `try` propagates the
`.error`.  Observable side effects (prints, file-input population, browser
close, `os.system`, upload attempts) are recorded in an event trace.
Python truthiness of optional strings (`if album_title:`, `if href:`,
`if not browser_cmd:`) is modelled by `truthy`, since the empty string is
falsy in Python.
-/

namespace Upload

/-- Abstract handle to a DOM element (Playwright `ElementHandle`). -/
abbrev Elem := Nat

/-- Result of a Playwright call that may raise; `.error ()` models a raised
exception of any kind. -/
abbrev PW (a : Type) := Except Unit a

/-- Python truthiness of an optional string: `None` and `""` are falsy. -/
def truthy : Option String → Bool
  | none => false
  | some s => s ≠ ""

/-- `FILE_INPUT_SELECTORS` (lines 20-25). -/
def FILE_INPUT_SELECTORS : List String :=
  ["input[type=\"file\"]",
   "input[name=\"upload[]\"]",
   "input#uploadFiles",
   "input[name=\"files[]\"]"]

/-- `ALBUM_INPUT_SELECTORS` (lines 26-31). -/
def ALBUM_INPUT_SELECTORS : List String :=
  ["input[name=\"album_title\"]",
   "input#album-title",
   "input[placeholder*=\"Album\"]",
   "input[placeholder*=\"album\"]"]

/-- `UPLOAD_BUTTON_SELECTORS` (lines 32-36). -/
def UPLOAD_BUTTON_SELECTORS : List String :=
  ["button:has-text(\"Upload\")",
   "button:has-text(\"Start upload\")",
   "button[type=\"submit\"]"]

/-- Loop body of `find_file_input` (lines 39-46): for each selector, query it
inside `try/except Exception: pass`; the first element found is returned with
its selector.  `q` is `page.query_selector`. -/
def find_file_input_go (q : String → PW (Option Elem)) :
    List String → PW (Option (Elem × String))
  | [] => .ok none
  | sel :: rest =>
    match q sel with
    | .error _ => find_file_input_go q rest
    | .ok none => find_file_input_go q rest
    | .ok (some el) => .ok (some (el, sel))

/-- `find_file_input` (lines 38-46). -/
def find_file_input (q : String → PW (Option Elem)) : PW (Option (Elem × String)) :=
  find_file_input_go q FILE_INPUT_SELECTORS

/-- Selector loop of `click_upload` (lines 49-56): query each button selector
and click it inside `try/except: pass`; a raised exception from the query or
the click moves on to the next selector. -/
def click_upload_go (q : String → PW (Option Elem)) (click : Elem → PW Unit) :
    List String → PW Bool
  | [] => .ok false
  | sel :: rest =>
    match q sel with
    | .error _ => click_upload_go q click rest
    | .ok none => click_upload_go q click rest
    | .ok (some btn) =>
      match click btn with
      | .error _ => click_upload_go q click rest
      | .ok _ => .ok true

/-- `click_upload` (lines 48-61): try the button selectors, then fall back to
pressing Enter inside `try/except`; returns whether anything was activated. -/
def click_upload (q : String → PW (Option Elem)) (click : Elem → PW Unit)
    (press : PW Unit) : PW Bool :=
  match click_upload_go q click UPLOAD_BUTTON_SELECTORS with
  | .error e => .error e
  | .ok true => .ok true
  | .ok false =>
    match press with
    | .ok _ => .ok true
    | .error _ => .ok false

/-- The album-title probing loop (lines 119-126 and 139-146): for each album
selector, inside `try/except: pass`, query it and `fill` the first element
found, then `break`; if the element is absent or `fill` raises, continue. -/
def try_album_fill (q : String → PW (Option Elem)) (fill : Elem → PW Unit) :
    List String → PW Unit
  | [] => .ok ()
  | sel :: rest =>
    match q sel with
    | .error _ => try_album_fill q fill rest
    | .ok none => try_album_fill q fill rest
    | .ok (some el) =>
      match fill el with
      | .error _ => try_album_fill q fill rest
      | .ok _ => .ok ()

/-- Substring test, modelling Python `pat in s`. -/
def strContains (s pat : String) : Bool :=
  decide (List.IsInfix pat.toList s.toList)

/-- The link filter of line 74: `"postimages.org" in href or "postimg.cc" in href`. -/
def isResultHref (href : String) : Bool :=
  strContains href "postimages.org" || strContains href "postimg.cc"

/-- `found.add(href)` on the Python `set`, modelled as an insertion-ordered
set on a duplicate-free list. -/
def insertLink (found : List String) (href : String) : List String :=
  if href ∈ found then found else found ++ [href]

/-- What one polling iteration of `collect_result_links` can observe on the
page: the `query_selector_all` result for the anchor selectors (line 70), the
`get_attribute("href")` result per element (lines 73 and 81), and the
`query_selector` result for the album-anchor selectors (line 79). -/
structure PageView where
  anchors : PW (List Elem)
  attr : Elem → PW (Option String)
  album : PW (Option Elem)

/-- The anchor scan of lines 71-77: each `get_attribute` call sits inside
`try/except Exception: pass`, so a raising anchor is skipped; a truthy href
matching the link filter is added to `found`. -/
def scanAnchors (v : PageView) (anchors : List Elem) (found : List String) :
    List String :=
  anchors.foldl (fun acc a =>
    match v.attr a with
    | .error _ => acc
    | .ok none => acc
    | .ok (some href) =>
      if href ≠ "" ∧ isResultHref href then insertLink acc href else acc) found

/-- The album-anchor probe of lines 79-83: `query_selector` and the following
`get_attribute` are NOT inside any `try`, so their exceptions propagate; a
falsy href (absent or empty) yields no album link. -/
def albumProbe (v : PageView) : PW (Option String) :=
  match v.album with
  | .error e => .error e
  | .ok none => .ok none
  | .ok (some el) =>
    match v.attr el with
    | .error e => .error e
    | .ok none => .ok none
    | .ok (some href) => .ok (if href = "" then none else some href)

/-- The polling loop of `collect_result_links` (lines 65-93): while
`elapsed < timeout_ms`, scan the anchors, probe for an album anchor (returning
at once with it added to `found`), return `found` if nonempty, else wait
`step = 2000` ms and repeat; on timeout return `found` (empty).  `page iter`
is the DOM as observed by iteration `iter`. -/
def collect_loop (page : Nat → PageView) (timeout_ms : Nat) :
    Nat → Nat → List String → PW (List String)
  | iter, elapsed, found =>
    if h : elapsed < timeout_ms then
      match (page iter).anchors with
      | .error e => .error e
      | .ok anchors =>
        let found1 := scanAnchors (page iter) anchors found
        match albumProbe (page iter) with
        | .error e => .error e
        | .ok (some href) => .ok (insertLink found1 href)
        | .ok none =>
          if found1 = [] then
            collect_loop page timeout_ms (iter + 1) (elapsed + 2000) found1
          else .ok found1
    else .ok found
termination_by _ elapsed _ => timeout_ms - elapsed
decreasing_by omega

/-- `collect_result_links` (lines 63-93). -/
def collect_result_links (page : Nat → PageView) (timeout_ms : Nat) :
    PW (List String) :=
  collect_loop page timeout_ms 0 0 []

/-- Observable effects of a run. -/
inductive Event where
  | print (msg : String)
  | goto
  | setInputFiles (files : List String)
  | browserClose
  | system (cmd : String)
  | upload (batch : List String) (album : Option String)
deriving DecidableEq, Repr

/-- Oracle for one `upload_files` browser session: `q` is
`page.query_selector`, `fill`/`click`/`press` the corresponding element
actions, `multiple` the result of `el.evaluate("el => !!el.multiple")`, and
`pages r` the time-indexed page views seen by the `collect_result_links` call
of round `r` (round 0 for the single multiple-upload request, round `i` for
the i-th sequential upload). -/
structure UploadEnv where
  q : String → PW (Option Elem)
  fill : Elem → PW Unit
  click : Elem → PW Unit
  press : PW Unit
  multiple : Bool
  pages : Nat → Nat → PageView

/-- The deduplication loop of `upload_files` (lines 156-159):
`for l in results: if l not in deduped: deduped.append(l)`. -/
def dedupe (results : List String) : List String :=
  results.foldl (fun deduped l => if l ∈ deduped then deduped else deduped ++ [l]) []

/-- The sequential-upload loop of `upload_files` (lines 135-152): for the
`i`-th file (1-based) print a progress line, set the file input, probe the
album title field when `i == 1` and a truthy title was given, click upload,
collect links with a 60 s timeout, extend the results, and navigate back. -/
def seq_loop (env : UploadEnv) (album_title : Option String) (total : Nat) :
    Nat → List String → PW (List String × List Event)
  | _, [] => .ok ([], [])
  | i, f :: rest =>
    let ev0 : List Event :=
      [.print ("Uploading " ++ toString i ++ "/" ++ toString total ++ ": " ++ f),
       .setInputFiles [f]]
    match (if truthy album_title ∧ i = 1 then
             try_album_fill env.q env.fill ALBUM_INPUT_SELECTORS
           else .ok ()) with
    | .error e => .error e
    | .ok _ =>
      match click_upload env.q env.click env.press with
      | .error e => .error e
      | .ok _ =>
        match collect_result_links (env.pages i) 60000 with
        | .error e => .error e
        | .ok links =>
          match seq_loop env album_title total (i + 1) rest with
          | .error e => .error e
          | .ok (res, evs) => .ok (links ++ res, ev0 ++ [.goto] ++ evs)

/-- `upload_files` (lines 95-160): open the page, locate the file input
(aborting with a printed error, a browser close and an empty result if none is
found), then either submit all files in one request (multiple-capable input)
or upload them sequentially; finally close the browser and return the
deduplicated collected links. -/
def upload_files (env : UploadEnv) (avif_files : List String)
    (album_title : Option String) (headful : Bool) : PW (List String × List Event) :=
  let _ := headful
  let ev0 : List Event := [.goto]
  match find_file_input env.q with
  | .error e => .error e
  | .ok none =>
    .ok ([], ev0 ++
      [.print "ERROR: file input not found on postimages.org. Update selectors.",
       .browserClose])
  | .ok (some (_, used_sel)) =>
    let ev1 := ev0 ++
      (if env.multiple then []
       else [.print "File input does NOT support multiple files. Script will upload files sequentially."])
    if env.multiple then
      let ev2 := ev1 ++
        [.print ("Uploading " ++ toString avif_files.length ++
           " files in one request via selector " ++ used_sel ++ " ..."),
         .setInputFiles avif_files]
      match (if truthy album_title then
               try_album_fill env.q env.fill ALBUM_INPUT_SELECTORS
             else .ok ()) with
      | .error e => .error e
      | .ok _ =>
        match click_upload env.q env.click env.press with
        | .error e => .error e
        | .ok clicked =>
          let ev3 := ev2 ++
            (if clicked then []
             else [.print "Warning: upload button not found/clicked; upload may still proceed automatically."])
          match collect_result_links (env.pages 0) 120000 with
          | .error e => .error e
          | .ok links =>
            .ok (dedupe links, ev3 ++ [.browserClose])
    else
      match seq_loop env album_title avif_files.length 1 avif_files with
      | .error e => .error e
      | .ok (results, evs) =>
        .ok (dedupe results, ev1 ++ evs ++ [.browserClose])

/-- Oracle for the host system: `fs_exists` is `Path(...).exists()`,
`rglob d` the list of string paths produced by `Path(d).rglob("*.avif")`
(in traversal order), and `browser` the value of `$BROWSER`. -/
structure SysEnv where
  fs_exists : String → Bool
  rglob : String → List String
  browser : Option String

/-- Python string comparison, as used by `sorted(files)`: lexicographic by
code points.  Computed through the core list-of-characters order so that it
evaluates inside the kernel. -/
def strLE (a b : String) : Bool :=
  !(@decide (@LT.lt String String.instLT b a) (String.decLt b a))

/-- `collect_avif_files` (lines 162-167): `SystemExit` (here `.error`) when
the directory does not exist, else the sorted `rglob` matches. -/
def collect_avif_files (env : SysEnv) (base_dir : String) :
    Except String (List String) :=
  if env.fs_exists base_dir then
    .ok ((env.rglob base_dir).mergeSort strLE)
  else
    .error ("Directory not found: " ++ base_dir)

/-- `open_in_host_browser` (lines 169-175): with a truthy `$BROWSER` run
`os.system(f"BROWSER-cmd \"url\"")`, otherwise print a hint and do nothing. -/
def open_in_host_browser (env : SysEnv) (url : String) : List Event :=
  if truthy env.browser then
    [.system (env.browser.getD "" ++ " \"" ++ url ++ "\"")]
  else
    [.print "Set $BROWSER to a command like xdg-open to auto-open the link."]

/-- The parsed command-line arguments (lines 178-184). -/
structure Args where
  dir : String
  album : Option String
  headful : Bool
  openFlag : Bool
  batch_size : Nat

/-- The fallback batch loop of `main` (lines 206-212):
`for i in range(0, len(files), batch_size)`, upload `files[i : i+batch_size]`
with the album title only when `i == 0`, extend `all_links`, and open the
first link of the batch when `--open` was given and links resulted.
`uploader b a` abstracts `asyncio.run(upload_files(b, album_title=a, ...))`;
the returned pair is (`all_links` contributed, trace).  `rem` is
`files[i:]`. -/
def batchLoop (env : SysEnv) (uploader : List String → Option String → List String)
    (args : Args) : List String → Nat → List String × List Event
  | rem, i =>
    if h : args.batch_size = 0 ∨ rem = [] then ([], [])
    else
      let batch := rem.take args.batch_size
      let alb := if i = 0 then args.album else none
      let links := uploader batch alb
      let ev : List Event :=
        [.print ("Uploading batch " ++ toString (i / args.batch_size + 1) ++
           " (" ++ toString batch.length ++ " files)..."),
         .upload batch alb]
      let evO : List Event :=
        match links with
        | [] => []
        | l :: _ => if args.openFlag then open_in_host_browser env l else []
      let rest := batchLoop env uploader args (rem.drop args.batch_size)
        (i + args.batch_size)
      (links ++ rest.1, ev ++ evO ++ rest.2)
termination_by rem _ => rem.length
decreasing_by
  have hbs : args.batch_size ≠ 0 := fun hc => h (Or.inl hc)
  have hrem : rem ≠ [] := fun hc => h (Or.inr hc)
  have hpos := List.length_pos.mpr hrem
  simp only [List.length_drop]
  omega

/-- `main` (lines 177-218): discover the files, attempt a single upload of
the first `batch_size` files, report and possibly open its links; otherwise
fall back to the batch loop.  The returned list is the set of links the run
reports. -/
def main (env : SysEnv) (uploader : List String → Option String → List String)
    (args : Args) : Except String (List String × List Event) :=
  match collect_avif_files env args.dir with
  | .error e => .error e
  | .ok files =>
    if files = [] then
      .ok ([], [.print ("No .avif files found under " ++ args.dir)])
    else
      let ev0 : List Event := [.print ("Found " ++ toString files.length ++ " .avif files.")]
      let batch := files.take args.batch_size
      let links := uploader batch args.album
      let ev1 := ev0 ++ [.upload batch args.album]
      match links with
      | l :: ls =>
        let evL := Event.print "Upload produced the following link(s):" ::
          (l :: ls).map (fun s => Event.print (" - " ++ s))
        let evO := if args.openFlag then open_in_host_browser env l else []
        .ok (l :: ls, ev1 ++ evL ++ evO)
      | [] =>
        let ev2 := ev1 ++ [.print "No album link found for single upload; falling back to batch uploads..."]
        let r := batchLoop env uploader args files 0
        let evF : List Event :=
          if r.1 = [] then
            [.print "No links produced. Run with --headful to watch and debug the upload process."]
          else
            Event.print "Collected links:" :: r.1.map (fun s => Event.print (" - " ++ s))
        .ok (r.1, ev2 ++ r.2 ++ evF)

/-! Specification-side definitions, used to state the claims. -/

/-- The slices `files[i : i+bs]` for `i in range(0, len(files), bs)`. -/
def batches (files : List String) (bs : Nat) : List (List String) :=
  if h : bs = 0 ∨ files = [] then []
  else files.take bs :: batches (files.drop bs) bs
termination_by files.length
decreasing_by
  have hbs : bs ≠ 0 := fun hc => h (Or.inl hc)
  have hrem : files ≠ [] := fun hc => h (Or.inr hc)
  have hpos := List.length_pos.mpr hrem
  simp only [List.length_drop]
  omega

/-- The upload attempts recorded in a trace, with their batch and album
argument, in order. -/
def uploadCalls (tr : List Event) : List (List String × Option String) :=
  tr.filterMap (fun e =>
    match e with
    | .upload b a => some (b, a)
    | _ => none)

/-- Tag a batch list the way the fallback loop passes album titles: the
first batch gets the album, every later batch gets `None`. -/
def albumFirst (album : Option String) :
    List (List String) → List (List String × Option String)
  | [] => []
  | b :: rest => (b, album) :: rest.map (fun x => (x, (none : Option String)))

/-- The trace of a `main` run (empty when it exits via `SystemExit`). -/
def mainTrace (env : SysEnv) (uploader : List String → Option String → List String)
    (args : Args) : List Event :=
  match main env uploader args with
  | .ok r => r.2
  | .error _ => []

/-- Specification of first-seen-order deduplication: keep each distinct
element once, at the position of its first occurrence. -/
def firstOcc : List String → List String
  | [] => []
  | a :: l => a :: firstOcc (l.filter (fun x => x ≠ a))
termination_by l => l.length
decreasing_by
  simp only [List.length_cons]
  exact Nat.lt_succ_of_le (List.length_filter_le _ _)

/-! Concrete oracles used by witnesses and counterexamples. -/

/-- A page view on which every lookup succeeds and finds nothing. -/
def pageEmpty : PageView :=
  ⟨.ok [], fun _ => .ok none, .ok none⟩

/-- A page view whose bulk anchor query (`query_selector_all`, made outside
any `try`) raises. -/
def pageBad : PageView :=
  ⟨.error (), fun _ => .ok none, .ok none⟩

/-- A page view whose per-anchor `get_attribute` calls all raise (they are
each wrapped in `try/except: pass`). -/
def pageAttrRaise : PageView :=
  ⟨.ok [0, 1], fun _ => .error (), .ok none⟩

/-- `query_selector` finding nothing, never raising. -/
def qNone : String → PW (Option Elem) := fun _ => .ok none

/-- A browser session whose page has no file input. -/
def envNoInput : UploadEnv :=
  ⟨qNone, fun _ => .ok (), fun _ => .ok (), .ok (), true, fun _ _ => pageEmpty⟩

/-- A host with an existing directory holding two (unsorted) matches and
`$BROWSER` set. -/
def sysA : SysEnv :=
  ⟨fun _ => true, fun _ => ["b.avif", "a.avif"], some "xdg-open"⟩

/-- A host on which no path exists. -/
def sysMissing : SysEnv :=
  ⟨fun _ => false, fun _ => [], none⟩

/-- A run asking for batch size 1 over two files: `--dir d --batch-size 1`. -/
def argsSmall : Args :=
  ⟨"d", none, false, false, 1⟩

/-- A run with `--open` and the default batch size 500. -/
def argsOpen : Args :=
  ⟨"d", none, false, true, 500⟩

/-- An uploader that never yields links. -/
def upNone : List String → Option String → List String := fun _ _ => []

/-- An uploader that always yields one link. -/
def upOne : List String → Option String → List String :=
  fun _ _ => ["https://postimg.cc/x"]

/-! Helper lemmas. -/

theorem strLE_iff (a b : String) : strLE a b = true ↔ a ≤ b := by
  rw [strLE, Bool.not_eq_true', decide_eq_false_iff_not]
  show ¬ List.lt b.toList a.toList ↔ a ≤ b
  rw [List.lt_iff_lex_lt]
  show ¬ (b.toList < a.toList) ↔ a ≤ b
  rw [← String.lt_iff_toList_lt]
  exact not_lt

theorem strLE_trans : ∀ a b c : String,
    strLE a b = true → strLE b c = true → strLE a c = true :=
  fun a b c hab hbc =>
    (strLE_iff a c).mpr (le_trans ((strLE_iff a b).mp hab) ((strLE_iff b c).mp hbc))

theorem strLE_total : ∀ a b : String, (strLE a b || strLE b a) = true := by
  intro a b
  rcases le_total a b with h | h
  · simp [(strLE_iff a b).mpr h]
  · simp [(strLE_iff b a).mpr h]

theorem dedupe_go (xs : List String) : ∀ acc : List String,
    xs.foldl (fun deduped l => if l ∈ deduped then deduped else deduped ++ [l]) acc
      = acc ++ firstOcc (xs.filter (fun x => x ∉ acc)) := by
  induction xs with
  | nil => intro acc; simp [firstOcc]
  | cons a l ih =>
    intro acc
    by_cases ha : a ∈ acc
    · rw [List.foldl_cons, if_pos ha, ih acc, List.filter_cons_of_neg (by simp [ha])]
    · rw [List.foldl_cons, if_neg ha, ih (acc ++ [a]),
        List.filter_cons_of_pos (by simp [ha]), firstOcc]
      have h2 : l.filter (fun x => x ∉ acc ++ [a])
          = (l.filter (fun x => x ∉ acc)).filter (fun x => x ≠ a) := by
        rw [List.filter_filter]
        apply List.filter_congr
        intro x _
        simp [List.mem_append, not_or, and_comm]
      rw [h2]
      simp

theorem mem_firstOcc : ∀ (l : List String) (x : String),
    x ∈ firstOcc l ↔ x ∈ l := by
  intro l
  induction l using firstOcc.induct with
  | case1 => intro x; rw [firstOcc]
  | case2 a l ih =>
    intro x
    rw [firstOcc]
    by_cases hxa : x = a
    · subst hxa; simp
    · simp only [List.mem_cons, ih x, List.mem_filter]
      simp [hxa]

theorem firstOcc_nodup : ∀ l : List String, (firstOcc l).Nodup := by
  intro l
  induction l using firstOcc.induct with
  | case1 => rw [firstOcc]; exact List.nodup_nil
  | case2 a l ih =>
    rw [firstOcc]
    refine List.nodup_cons.mpr ⟨?_, ih⟩
    intro hmem
    rw [mem_firstOcc] at hmem
    rcases List.mem_filter.mp hmem with ⟨_, hne⟩
    simp at hne

theorem dedupe_eq_firstOcc (xs : List String) : dedupe xs = firstOcc xs := by
  rw [dedupe, dedupe_go]
  have h : xs.filter (fun x => x ∉ ([] : List String)) = xs := by
    apply List.filter_eq_self.mpr
    intro a _
    simp
  rw [h]
  simp

theorem batches_flatten : ∀ (files : List String) (bs : Nat), 0 < bs →
    (batches files bs).flatten = files := by
  intro files bs
  induction files, bs using batches.induct with
  | case1 files bs h =>
    intro hbs
    rw [batches, dif_pos h]
    rcases h with h | h
    · omega
    · simp [h]
  | case2 files bs h ih =>
    intro hbs
    rw [batches, dif_neg h]
    simp [ih hbs]

theorem batches_le : ∀ (files : List String) (bs : Nat),
    ∀ b ∈ batches files bs, b.length ≤ bs := by
  intro files bs
  induction files, bs using batches.induct with
  | case1 files bs h =>
    rw [batches, dif_pos h]
    intro b hb
    simp at hb
  | case2 files bs h ih =>
    rw [batches, dif_neg h]
    intro b hb
    rcases List.mem_cons.mp hb with rfl | hb
    · simpa using List.length_take_le bs files
    · exact ih b hb

theorem batches_count : ∀ (files : List String) (bs : Nat), 0 < bs →
    (batches files bs).length = (files.length + bs - 1) / bs := by
  intro files bs
  induction files, bs using batches.induct with
  | case1 files bs h =>
    intro hbs
    rw [batches, dif_pos h]
    rcases h with h | h
    · omega
    · subst h
      have h0 : (bs - 1) / bs = 0 := Nat.div_eq_of_lt (by omega)
      simp [h0]
  | case2 files bs h ih =>
    intro hbs
    rw [batches, dif_neg h]
    have hN : 0 < files.length := List.length_pos.mpr (fun hc => h (Or.inr hc))
    simp only [List.length_cons, ih hbs, List.length_drop]
    rcases Nat.lt_or_ge files.length bs with hlt | hge
    · have h0 : files.length - bs = 0 := by omega
      rw [h0]
      rw [Nat.div_eq_of_lt (by omega : 0 + bs - 1 < bs)]
      have h1 : files.length + bs - 1 = (files.length - 1) + bs := by omega
      rw [h1, Nat.add_div_right _ hbs, Nat.div_eq_of_lt (by omega)]
    · have h1 : files.length - bs + bs - 1 = files.length - 1 := by omega
      have h2 : files.length + bs - 1 = (files.length - 1) + bs := by omega
      rw [h1, h2, Nat.add_div_right _ hbs]

theorem uploadCalls_append (t1 t2 : List Event) :
    uploadCalls (t1 ++ t2) = uploadCalls t1 ++ uploadCalls t2 := by
  rw [uploadCalls, uploadCalls, uploadCalls, List.filterMap_append]

theorem uploadCalls_open (env : SysEnv) (url : String) :
    uploadCalls (open_in_host_browser env url) = [] := by
  rw [open_in_host_browser]
  by_cases h : truthy env.browser = true <;> simp [h, uploadCalls]

theorem albumFirst_map_fst (album : Option String) (bss : List (List String)) :
    (albumFirst album bss).map Prod.fst = bss := by
  cases bss with
  | nil => rfl
  | cons b rest =>
    simp only [albumFirst, List.map_cons, List.map_map]
    have hcomp : (Prod.fst ∘ fun x : List String => (x, (none : Option String))) = id := rfl
    rw [hcomp, List.map_id]

theorem batchLoop_calls (env : SysEnv) (uploader : List String → Option String → List String)
    (args : Args) (hbs : 0 < args.batch_size) :
    ∀ (rem : List String) (i : Nat), i ≠ 0 →
      uploadCalls (batchLoop env uploader args rem i).2 =
        (batches rem args.batch_size).map (fun b => (b, (none : Option String))) := by
  intro rem i
  induction rem, i using batchLoop.induct env uploader args with
  | case1 rem i hstop =>
    intro _
    rw [batchLoop, dif_pos hstop, batches, dif_pos hstop]
    simp [uploadCalls]
  | case2 rem i hstop ih =>
    intro hne
    rw [batchLoop, dif_neg hstop, batches, dif_neg hstop]
    simp only [if_neg hne, uploadCalls_append, List.map_cons]
    have hcalls1 : uploadCalls
        [Event.print ("Uploading batch " ++ toString (i / args.batch_size + 1) ++
           " (" ++ toString (rem.take args.batch_size).length ++ " files)..."),
         Event.upload (rem.take args.batch_size) none] =
        [(rem.take args.batch_size, (none : Option String))] := by
      simp [uploadCalls]
    have hcallsO : ∀ links : List String, uploadCalls
        (match links with
         | [] => ([] : List Event)
         | l :: _ => if args.openFlag then open_in_host_browser env l else []) = [] := by
      intro links
      cases links with
      | nil => simp [uploadCalls]
      | cons l rest =>
        by_cases ho : args.openFlag = true
        · simp [ho, uploadCalls_open]
        · simp [ho, uploadCalls]
    rw [hcalls1, hcallsO, ih (by omega)]
    simp

theorem batchLoop_calls_zero (env : SysEnv)
    (uploader : List String → Option String → List String)
    (args : Args) (hbs : 0 < args.batch_size) (rem : List String) :
    uploadCalls (batchLoop env uploader args rem 0).2 =
      albumFirst args.album (batches rem args.batch_size) := by
  by_cases hstop : args.batch_size = 0 ∨ rem = []
  · rw [batchLoop, dif_pos hstop, batches, dif_pos hstop]
    simp [uploadCalls, albumFirst]
  · rw [batchLoop, dif_neg hstop, batches, dif_neg hstop, albumFirst]
    simp only [eq_self_iff_true, if_true, uploadCalls_append]
    have hcalls1 : uploadCalls
        [Event.print ("Uploading batch " ++ toString (0 / args.batch_size + 1) ++
           " (" ++ toString (rem.take args.batch_size).length ++ " files)..."),
         Event.upload (rem.take args.batch_size) args.album] =
        [(rem.take args.batch_size, args.album)] := by
      simp [uploadCalls]
    have hcallsO : ∀ links : List String, uploadCalls
        (match links with
         | [] => ([] : List Event)
         | l :: _ => if args.openFlag then open_in_host_browser env l else []) = [] := by
      intro links
      cases links with
      | nil => simp [uploadCalls]
      | cons l rest =>
        by_cases ho : args.openFlag = true
        · simp [ho, uploadCalls_open]
        · simp [ho, uploadCalls]
    rw [hcalls1, hcallsO, batchLoop_calls env uploader args hbs _ _ (by omega)]
    simp

theorem upload_files_nodup (env : UploadEnv) (files : List String)
    (alb : Option String) (hf : Bool) (r : List String) (tr : List Event)
    (h : upload_files env files alb hf = .ok (r, tr)) : r.Nodup := by
  rw [upload_files] at h
  repeat' split at h
  all_goals first
    | exact Except.noConfusion h
    | (rw [Except.ok.injEq, Prod.mk.injEq] at h
       rcases h with ⟨hr, -⟩
       rw [← hr]
       first
         | exact List.nodup_nil
         | (rw [dedupe_eq_firstOcc]; exact firstOcc_nodup _))

/-- C2: the deduplication step of `upload_files` keeps each distinct URL
exactly once, in order of first occurrence in the collected list (`firstOcc`),
so any list `upload_files` returns has no duplicates. -/
theorem C2_dedupe_first_seen :
    (∀ results : List String,
        dedupe results = firstOcc results ∧ (dedupe results).Nodup ∧
        ∀ x, x ∈ dedupe results ↔ x ∈ results) ∧
    ∀ (env : UploadEnv) (files : List String) (alb : Option String) (hf : Bool)
      (r : List String) (tr : List Event),
      upload_files env files alb hf = .ok (r, tr) → r.Nodup := by
  constructor
  · intro results
    refine ⟨dedupe_eq_firstOcc results, ?_, ?_⟩
    · rw [dedupe_eq_firstOcc]
      exact firstOcc_nodup _
    · intro x
      rw [dedupe_eq_firstOcc]
      exact mem_firstOcc results x
  · exact upload_files_nodup

/-- Witness for C2 at a concrete aborting run. -/
theorem C2_witness :
    upload_files envNoInput ["x.avif"] none false =
      .ok ([], [Event.goto,
        Event.print "ERROR: file input not found on postimages.org. Update selectors.",
        Event.browserClose]) ∧
    ([] : List String).Nodup :=
  ⟨rfl, C2_dedupe_first_seen.2 envNoInput ["x.avif"] none false [] _ rfl⟩

/-- C3: for every file list and positive batch size, the slices taken by the
fallback batch loop are exactly `batches`, which partitions the files into
ceil(N/batch_size) consecutive groups of at most `batch_size` files each,
every file landing in exactly one group (their concatenation is the original
list). -/
theorem C3_batches_partition (env : SysEnv)
    (uploader : List String → Option String → List String) (args : Args)
    (files : List String) (hbs : 0 < args.batch_size) :
    ((uploadCalls (batchLoop env uploader args files 0).2).map Prod.fst
        = batches files args.batch_size) ∧
    (batches files args.batch_size).flatten = files ∧
    (∀ b ∈ batches files args.batch_size, b.length ≤ args.batch_size) ∧
    (batches files args.batch_size).length
      = (files.length + args.batch_size - 1) / args.batch_size := by
  refine ⟨?_, batches_flatten files _ hbs, batches_le files _, batches_count files _ hbs⟩
  rw [batchLoop_calls_zero env uploader args hbs, albumFirst_map_fst]

/-- Witness for C3 at a concrete two-file, batch-size-1 run. -/
theorem C3_witness :
    0 < argsSmall.batch_size ∧
    (((uploadCalls (batchLoop sysA upNone argsSmall ["a.avif", "b.avif"] 0).2).map Prod.fst
        = batches ["a.avif", "b.avif"] argsSmall.batch_size) ∧
    (batches ["a.avif", "b.avif"] argsSmall.batch_size).flatten = ["a.avif", "b.avif"] ∧
    (∀ b ∈ batches ["a.avif", "b.avif"] argsSmall.batch_size, b.length ≤ argsSmall.batch_size) ∧
    (batches ["a.avif", "b.avif"] argsSmall.batch_size).length
      = ((["a.avif", "b.avif"] : List String).length + argsSmall.batch_size - 1) / argsSmall.batch_size) :=
  ⟨by decide, C3_batches_partition sysA upNone argsSmall ["a.avif", "b.avif"] (by decide)⟩

/-- C10: in the fallback batch loop the `--album` title is passed only with
the first batch (start index 0); every later batch is uploaded with album
`None` (`albumFirst`). -/
theorem C10_album_only_first_batch (env : SysEnv)
    (uploader : List String → Option String → List String)
    (args : Args) (files : List String) (hbs : 0 < args.batch_size) :
    uploadCalls (batchLoop env uploader args files 0).2 =
      albumFirst args.album (batches files args.batch_size) :=
  batchLoop_calls_zero env uploader args hbs files

/-- Witness for C10 at a concrete two-file, batch-size-1 run. -/
theorem C10_witness :
    0 < argsSmall.batch_size ∧
    uploadCalls (batchLoop sysA upNone argsSmall ["a.avif", "b.avif"] 0).2 =
      albumFirst argsSmall.album (batches ["a.avif", "b.avif"] argsSmall.batch_size) :=
  ⟨by decide, C10_album_only_first_batch sysA upNone argsSmall ["a.avif", "b.avif"] (by decide)⟩

/-- C9: a nonexistent `--dir` makes `collect_avif_files` raise `SystemExit`
(the `.error` outcome) with its diagnostic, and `main` propagates it, never
reaching an upload. -/
theorem C9_nonexistent_dir (env : SysEnv)
    (uploader : List String → Option String → List String) (args : Args)
    (hex : env.fs_exists args.dir = false) :
    collect_avif_files env args.dir = .error ("Directory not found: " ++ args.dir) ∧
    main env uploader args = .error ("Directory not found: " ++ args.dir) := by
  have hc : collect_avif_files env args.dir
      = .error ("Directory not found: " ++ args.dir) := by
    rw [collect_avif_files, hex]
    simp
  refine ⟨hc, ?_⟩
  rw [main, hc]

/-- Witness for C9 at a concrete missing directory. -/
theorem C9_witness :
    sysMissing.fs_exists argsSmall.dir = false ∧
    (collect_avif_files sysMissing argsSmall.dir
        = .error ("Directory not found: " ++ argsSmall.dir) ∧
      main sysMissing upNone argsSmall
        = .error ("Directory not found: " ++ argsSmall.dir)) :=
  ⟨rfl, C9_nonexistent_dir sysMissing upNone argsSmall rfl⟩

/-- C6: on an existing directory, `collect_avif_files` returns exactly the
recursive `*.avif` matches (`rglob`), sorted ascending in the lexicographic
string order. -/
theorem C6_collect_sorted (env : SysEnv) (dir : String)
    (hex : env.fs_exists dir = true) :
    ∃ l, collect_avif_files env dir = .ok l ∧
      l.Perm (env.rglob dir) ∧ List.Sorted (· ≤ ·) l := by
  refine ⟨(env.rglob dir).mergeSort strLE, ?_, List.mergeSort_perm _ _, ?_⟩
  · rw [collect_avif_files, hex]
    rfl
  · exact List.Pairwise.imp (fun hab => (strLE_iff _ _).mp hab)
      (List.sorted_mergeSort strLE_trans strLE_total (env.rglob dir))

/-- Witness for C6 at a concrete existing directory. -/
theorem C6_witness :
    sysA.fs_exists "d" = true ∧
    ∃ l, collect_avif_files sysA "d" = .ok l ∧
      l.Perm (sysA.rglob "d") ∧ List.Sorted (· ≤ ·) l :=
  ⟨rfl, C6_collect_sorted sysA "d" rfl⟩

theorem find_file_input_go_ok (q : String → PW (Option Elem)) :
    ∀ sels : List String, ∃ r, find_file_input_go q sels = .ok r := by
  intro sels
  induction sels with
  | nil => exact ⟨none, rfl⟩
  | cons sel rest ih =>
    cases hq : q sel with
    | error e => simpa [find_file_input_go, hq] using ih
    | ok o =>
      cases o with
      | none => simpa [find_file_input_go, hq] using ih
      | some el => exact ⟨some (el, sel), by simp [find_file_input_go, hq]⟩

theorem click_upload_go_ok (q : String → PW (Option Elem)) (click : Elem → PW Unit) :
    ∀ sels : List String, ∃ b, click_upload_go q click sels = .ok b := by
  intro sels
  induction sels with
  | nil => exact ⟨false, rfl⟩
  | cons sel rest ih =>
    cases hq : q sel with
    | error e => simpa [click_upload_go, hq] using ih
    | ok o =>
      cases o with
      | none => simpa [click_upload_go, hq] using ih
      | some btn =>
        cases hc : click btn with
        | error e => simpa [click_upload_go, hq, hc] using ih
        | ok u => exact ⟨true, by simp [click_upload_go, hq, hc]⟩

theorem click_upload_ok (q : String → PW (Option Elem)) (click : Elem → PW Unit)
    (press : PW Unit) : ∃ b, click_upload q click press = .ok b := by
  obtain ⟨b, hb⟩ := click_upload_go_ok q click UPLOAD_BUTTON_SELECTORS
  rw [click_upload.eq_def, hb]
  cases b with
  | true => exact ⟨true, rfl⟩
  | false =>
    cases press with
    | error e => exact ⟨false, rfl⟩
    | ok u => exact ⟨true, rfl⟩

theorem try_album_fill_ok (q : String → PW (Option Elem)) (fill : Elem → PW Unit) :
    ∀ sels : List String, try_album_fill q fill sels = .ok () := by
  intro sels
  induction sels with
  | nil => rfl
  | cons sel rest ih =>
    cases hq : q sel with
    | error e => simpa [try_album_fill, hq] using ih
    | ok o =>
      cases o with
      | none => simpa [try_album_fill, hq] using ih
      | some el =>
        cases hf : fill el with
        | error e => simpa [try_album_fill, hq, hf] using ih
        | ok u => simp [try_album_fill, hq, hf]

theorem albumProbe_none (v : PageView) (h : v.album = .ok none) :
    albumProbe v = .ok none := by
  rw [albumProbe, h]

theorem scanAnchors_id (v : PageView)
    (hNo : ∀ a s, v.attr a = .ok (some s) → ¬(s ≠ "" ∧ isResultHref s = true)) :
    ∀ (l : List Elem) (found : List String), scanAnchors v l found = found := by
  intro l
  induction l with
  | nil => intro found; rfl
  | cons a rest ih =>
    intro found
    have hstep : (match v.attr a with
        | .error _ => found
        | .ok none => found
        | .ok (some href) =>
          if href ≠ "" ∧ isResultHref href then insertLink found href else found) = found := by
      cases hq : v.attr a with
      | error e => rfl
      | ok o =>
        cases o with
        | none => rfl
        | some s =>
          simp only []
          rw [if_neg (hNo a s hq)]
    rw [scanAnchors, List.foldl_cons, hstep]
    have h2 := ih found
    rw [scanAnchors] at h2
    exact h2

theorem collect_loop_ok (page : Nat → PageView)
    (hA : ∀ i, ∃ l, (page i).anchors = .ok l)
    (hAl : ∀ i, (page i).album = .ok none) :
    ∀ (timeout_ms iter elapsed : Nat) (found : List String),
      ∃ r, collect_loop page timeout_ms iter elapsed found = .ok r := by
  have haux : ∀ (fuel timeout_ms iter elapsed : Nat) (found : List String),
      timeout_ms - elapsed ≤ fuel →
      ∃ r, collect_loop page timeout_ms iter elapsed found = .ok r := by
    intro fuel
    induction fuel with
    | zero =>
      intro timeout_ms iter elapsed found hf
      rw [collect_loop, dif_neg (by omega : ¬ elapsed < timeout_ms)]
      exact ⟨found, rfl⟩
    | succ n ih =>
      intro timeout_ms iter elapsed found hf
      by_cases hlt : elapsed < timeout_ms
      · rw [collect_loop, dif_pos hlt]
        obtain ⟨l, hl⟩ := hA iter
        have hprobe : albumProbe (page iter) = .ok none := albumProbe_none _ (hAl iter)
        simp only [hl, hprobe]
        by_cases hempty : scanAnchors (page iter) l found = []
        · rw [if_pos hempty, hempty]
          exact ih timeout_ms (iter + 1) (elapsed + 2000) [] (by omega)
        · rw [if_neg hempty]
          exact ⟨_, rfl⟩
      · rw [collect_loop, dif_neg hlt]
        exact ⟨found, rfl⟩
  intro timeout_ms iter elapsed found
  exact haux (timeout_ms - elapsed) timeout_ms iter elapsed found (by omega)

theorem collect_loop_empty (page : Nat → PageView)
    (hA : ∀ i, ∃ l, (page i).anchors = .ok l)
    (hAl : ∀ i, (page i).album = .ok none)
    (hNo : ∀ i a s, (page i).attr a = .ok (some s) → ¬(s ≠ "" ∧ isResultHref s = true)) :
    ∀ (fuel timeout_ms iter elapsed : Nat), timeout_ms - elapsed ≤ fuel →
      collect_loop page timeout_ms iter elapsed [] = .ok [] := by
  intro fuel
  induction fuel with
  | zero =>
    intro timeout_ms iter elapsed hf
    rw [collect_loop, dif_neg (by omega : ¬ elapsed < timeout_ms)]
  | succ n ih =>
    intro timeout_ms iter elapsed hf
    by_cases hlt : elapsed < timeout_ms
    · rw [collect_loop, dif_pos hlt]
      obtain ⟨l, hl⟩ := hA iter
      have hscan : scanAnchors (page iter) l [] = [] := scanAnchors_id _ (hNo iter) l []
      have hprobe : albumProbe (page iter) = .ok none := albumProbe_none _ (hAl iter)
      simp only [hl, hprobe, hscan]
      rw [if_pos trivial]
      exact ih timeout_ms (iter + 1) (elapsed + 2000) (by omega)
    · rw [collect_loop, dif_neg hlt]

/-- C4 counterexample: at a page whose bulk `query_selector_all` (line 70,
outside any `try`) raises at the first polling iteration, the exception
propagates out of `collect_result_links`, contradicting the claim that no
selector or DOM lookup failure propagates out of it. -/
theorem C4_counterexample :
    collect_result_links (fun _ => pageBad) 120000 = .error () := by
  rw [collect_result_links, collect_loop, dif_pos (by norm_num : (0 : Nat) < 120000)]
  rfl

/-- C4 (amended): the lookups of `find_file_input`, `click_upload` and the
album-title probing are each wrapped in `try/except` and never propagate an
exception; inside `collect_result_links` only the per-anchor
`get_attribute` lookups are guarded — it cannot raise when the bulk anchor
query and the album query succeed (the per-anchor attribute lookups may
raise freely), but failures of those two unguarded lookups do propagate. -/
theorem C4_guarded_lookups :
    (∀ q : String → PW (Option Elem), ∃ r, find_file_input q = .ok r) ∧
    (∀ (q : String → PW (Option Elem)) (click : Elem → PW Unit) (press : PW Unit),
        ∃ b, click_upload q click press = .ok b) ∧
    (∀ (q : String → PW (Option Elem)) (fill : Elem → PW Unit) (sels : List String),
        try_album_fill q fill sels = .ok ()) ∧
    (∀ (page : Nat → PageView) (timeout_ms : Nat),
        (∀ i, ∃ l, (page i).anchors = .ok l) →
        (∀ i, (page i).album = .ok none) →
        ∃ r, collect_result_links page timeout_ms = .ok r) := by
  refine ⟨?_, ?_, ?_, ?_⟩
  · intro q
    exact find_file_input_go_ok q FILE_INPUT_SELECTORS
  · intro q click press
    exact click_upload_ok q click press
  · intro q fill sels
    exact try_album_fill_ok q fill sels
  · intro page timeout_ms hA hAl
    exact collect_loop_ok page hA hAl timeout_ms 0 0 []

/-- Witness for C4 at a concrete benign page. -/
theorem C4_witness :
    (∀ i : Nat, ∃ l, ((fun _ => pageEmpty) i : PageView).anchors = .ok l) ∧
    ∃ r, collect_result_links (fun _ => pageEmpty) 2000 = .ok r :=
  ⟨fun _ => ⟨[], rfl⟩,
   C4_guarded_lookups.2.2.2 (fun _ => pageEmpty) 2000 (fun _ => ⟨[], rfl⟩) (fun _ => rfl)⟩

/-- C5: `collect_result_links` polls until a link is seen or the timeout
elapses; when every iteration succeeds and never shows a link-shaped href or
album anchor, the timeout elapses and it returns the empty list (`.ok []`)
rather than raising, and whenever the unguarded lookups succeed it returns
`.ok` with whatever was collected. -/
theorem C5_timeout_returns_empty :
    (∀ (page : Nat → PageView) (timeout_ms : Nat),
        (∀ i, ∃ l, (page i).anchors = .ok l) →
        (∀ i, (page i).album = .ok none) →
        (∀ i a s, (page i).attr a = .ok (some s) → ¬(s ≠ "" ∧ isResultHref s = true)) →
        collect_result_links page timeout_ms = .ok []) ∧
    (∀ (page : Nat → PageView) (timeout_ms : Nat),
        (∀ i, ∃ l, (page i).anchors = .ok l) →
        (∀ i, (page i).album = .ok none) →
        ∃ r, collect_result_links page timeout_ms = .ok r) := by
  constructor
  · intro page timeout_ms hA hAl hNo
    exact collect_loop_empty page hA hAl hNo timeout_ms timeout_ms 0 0 (by omega)
  · intro page timeout_ms hA hAl
    exact collect_loop_ok page hA hAl timeout_ms 0 0 []

/-- Witness for C5 at a concrete linkless page. -/
theorem C5_witness :
    (∀ i : Nat, ((fun _ => pageEmpty) i : PageView).album = .ok none) ∧
    collect_result_links (fun _ => pageEmpty) 2000 = .ok [] :=
  ⟨fun _ => rfl,
   C5_timeout_returns_empty.1 (fun _ => pageEmpty) 2000 (fun _ => ⟨[], rfl⟩)
     (fun _ => rfl) (fun _ a s h => by simp [pageEmpty] at h)⟩

/-- C7: when no file input is found, `upload_files` prints the error message,
closes the browser, performs no upload (no file-input population and no
upload request appears in the trace), and returns the empty list. -/
theorem C7_missing_file_input (env : UploadEnv) (avif_files : List String)
    (alb : Option String) (hf : Bool)
    (hfind : find_file_input env.q = .ok none) :
    ∃ tr, upload_files env avif_files alb hf = .ok ([], tr) ∧
      Event.print "ERROR: file input not found on postimages.org. Update selectors." ∈ tr ∧
      Event.browserClose ∈ tr ∧
      (∀ fs, Event.setInputFiles fs ∉ tr) ∧
      (∀ b a, Event.upload b a ∉ tr) := by
  refine ⟨[Event.goto,
      Event.print "ERROR: file input not found on postimages.org. Update selectors.",
      Event.browserClose], ?_, by simp, by simp, ?_, ?_⟩
  · rw [upload_files, hfind]
    rfl
  · intro fs
    simp
  · intro b a
    simp

/-- Witness for C7 at a concrete session with no file input anywhere. -/
theorem C7_witness :
    find_file_input envNoInput.q = .ok none ∧
    ∃ tr, upload_files envNoInput ["x.avif"] none false = .ok ([], tr) ∧
      Event.print "ERROR: file input not found on postimages.org. Update selectors." ∈ tr ∧
      Event.browserClose ∈ tr ∧
      (∀ fs, Event.setInputFiles fs ∉ tr) ∧
      (∀ b a, Event.upload b a ∉ tr) :=
  ⟨rfl, C7_missing_file_input envNoInput ["x.avif"] none false rfl⟩

theorem uploadCalls_prints (msgs : List String) (f : String → String) :
    uploadCalls (msgs.map (fun s => Event.print (f s))) = [] := by
  induction msgs with
  | nil => rfl
  | cons m rest ih => simpa [uploadCalls] using ih

theorem open_in_host_browser_system (env : SysEnv) (cmd url : String)
    (hbr : env.browser = some cmd) (hcmd : cmd ≠ "") :
    open_in_host_browser env url = [Event.system (cmd ++ " \"" ++ url ++ "\"")] := by
  rw [open_in_host_browser, hbr]
  simp [truthy, hcmd]

unseal List.merge List.mergeSort batchLoop in
/-- C1 counterexample: with two discovered files and `--batch-size 1`, the
initial upload attempt covers only the first file (`files[:batch_size]`),
not the full set of discovered files as the claim states. -/
theorem C1_counterexample :
    collect_avif_files sysA argsSmall.dir = .ok ["a.avif", "b.avif"] ∧
    (uploadCalls (mainTrace sysA upNone argsSmall)).head? = some (["a.avif"], none) ∧
    ["a.avif"] ≠ ["a.avif", "b.avif"] :=
  ⟨rfl, rfl, by decide⟩

/-- C1 (amended): when the initial upload attempt — made over the first
`batch_size` discovered files, which is the full set only when at most
`batch_size` files were found — yields no links, `main` splits the full file
list into the fixed-size `batches` (each of at most `batch_size` files) and
uploads them sequentially in order. -/
theorem C1_fallback_batches (env : SysEnv)
    (uploader : List String → Option String → List String) (args : Args)
    (files : List String) (hbs : 0 < args.batch_size)
    (hcol : collect_avif_files env args.dir = .ok files)
    (hne : files ≠ [])
    (hfail : uploader (files.take args.batch_size) args.album = []) :
    ∃ links tr, main env uploader args = .ok (links, tr) ∧
      uploadCalls tr = (files.take args.batch_size, args.album) ::
        albumFirst args.album (batches files args.batch_size) := by
  rw [main, hcol]
  simp only [if_neg hne, hfail]
  refine ⟨_, _, rfl, ?_⟩
  simp only [uploadCalls_append]
  have h1 : ∀ m : String, uploadCalls [Event.print m] = [] := fun _ => rfl
  have h2 : uploadCalls [Event.upload (files.take args.batch_size) args.album] =
      [(files.take args.batch_size, args.album)] := rfl
  have h3 : uploadCalls
      (if (batchLoop env uploader args files 0).1 = [] then
        [Event.print "No links produced. Run with --headful to watch and debug the upload process."]
      else
        Event.print "Collected links:" ::
          (batchLoop env uploader args files 0).1.map (fun s => Event.print (" - " ++ s))) = [] := by
    by_cases hempty : (batchLoop env uploader args files 0).1 = []
    · simp [hempty, uploadCalls]
    · rw [if_neg hempty]
      have h4 := uploadCalls_prints (batchLoop env uploader args files 0).1 (fun s => " - " ++ s)
      simp only [uploadCalls] at h4 ⊢
      simpa using h4
  rw [h1, h1, h2, h3, batchLoop_calls_zero env uploader args hbs]
  simp

unseal List.merge List.mergeSort in
/-- Witness for C1 at a concrete two-file, batch-size-1 run. -/
theorem C1_witness :
    (0 < argsSmall.batch_size ∧
      collect_avif_files sysA argsSmall.dir = .ok ["a.avif", "b.avif"] ∧
      upNone ((["a.avif", "b.avif"] : List String).take argsSmall.batch_size) argsSmall.album = []) ∧
    ∃ links tr, main sysA upNone argsSmall = .ok (links, tr) ∧
      uploadCalls tr = ((["a.avif", "b.avif"] : List String).take argsSmall.batch_size, argsSmall.album) ::
        albumFirst argsSmall.album (batches ["a.avif", "b.avif"] argsSmall.batch_size) :=
  ⟨⟨by decide, rfl, rfl⟩,
   C1_fallback_batches sysA upNone argsSmall ["a.avif", "b.avif"] (by decide) rfl
     (by decide) rfl⟩

theorem batchLoop_open_mem (env : SysEnv)
    (uploader : List String → Option String → List String) (args : Args)
    (cmd : String) (hopen : args.openFlag = true)
    (hbr : env.browser = some cmd) (hcmd : cmd ≠ "") :
    ∀ (rem : List String) (i : Nat) (l : String) (ls : List String),
      (batchLoop env uploader args rem i).1 = l :: ls →
      Event.system (cmd ++ " \"" ++ l ++ "\"") ∈ (batchLoop env uploader args rem i).2 := by
  intro rem i
  induction rem, i using batchLoop.induct env uploader args with
  | case1 rem i hstop =>
    intro l ls hl
    rw [batchLoop, dif_pos hstop] at hl
    exact absurd hl (by simp)
  | case2 rem i hstop ih =>
    intro l ls hl
    rw [batchLoop, dif_neg hstop] at hl
    rw [batchLoop, dif_neg hstop]
    simp only [] at hl ⊢
    cases hlinks : uploader (rem.take args.batch_size)
        (if i = 0 then args.album else none) with
    | nil =>
      simp only [hlinks, List.nil_append] at hl
      have hmem := ih l ls hl
      simp only [hlinks, List.mem_append]
      exact Or.inr hmem
    | cons l0 ls0 =>
      simp only [hlinks, List.cons_append] at hl
      injection hl with hl0 hls
      subst hl0
      simp only [hlinks, if_pos hopen,
        open_in_host_browser_system env cmd l0 hbr hcmd]
      simp

/-- C8: when `--open` is given, `$BROWSER` holds a (nonempty) command and the
run produces at least one link, `main` invokes the `$BROWSER` command on the
first resulting link through `os.system`. -/
theorem C8_open_first_link (env : SysEnv)
    (uploader : List String → Option String → List String) (args : Args)
    (cmd : String) (l : String) (ls : List String) (tr : List Event)
    (hopen : args.openFlag = true) (hbr : env.browser = some cmd) (hcmd : cmd ≠ "")
    (hmain : main env uploader args = .ok (l :: ls, tr)) :
    Event.system (cmd ++ " \"" ++ l ++ "\"") ∈ tr := by
  rw [main] at hmain
  cases hcol : collect_avif_files env args.dir with
  | error e =>
    rw [hcol] at hmain
    exact Except.noConfusion hmain
  | ok files =>
    rw [hcol] at hmain
    simp only [] at hmain
    by_cases hne : files = []
    · rw [if_pos hne, Except.ok.injEq, Prod.mk.injEq] at hmain
      exact absurd hmain.1 (by simp)
    · rw [if_neg hne] at hmain
      cases hlinks : uploader (files.take args.batch_size) args.album with
      | cons l0 ls0 =>
        simp only [hlinks] at hmain
        rw [Except.ok.injEq, Prod.mk.injEq] at hmain
        obtain ⟨hl, htr⟩ := hmain
        injection hl with hl0 hls
        subst hl0
        rw [← htr, if_pos hopen, open_in_host_browser_system env cmd l0 hbr hcmd]
        simp
      | nil =>
        simp only [hlinks] at hmain
        rw [Except.ok.injEq, Prod.mk.injEq] at hmain
        obtain ⟨hl, htr⟩ := hmain
        have hmem := batchLoop_open_mem env uploader args cmd hopen hbr hcmd files 0 l ls hl
        rw [← htr]
        simp only [List.mem_append]
        exact Or.inl (Or.inr hmem)

unseal List.merge List.mergeSort in
/-- Witness for C8 at a concrete successful `--open` run. -/
theorem C8_witness :
    main sysA upOne argsOpen = .ok (["https://postimg.cc/x"],
      [Event.print "Found 2 .avif files.",
       Event.upload ["a.avif", "b.avif"] none,
       Event.print "Upload produced the following link(s):",
       Event.print " - https://postimg.cc/x",
       Event.system "xdg-open \"https://postimg.cc/x\""]) ∧
    Event.system ("xdg-open" ++ " \"" ++ "https://postimg.cc/x" ++ "\"") ∈
      ([Event.print "Found 2 .avif files.",
        Event.upload ["a.avif", "b.avif"] none,
        Event.print "Upload produced the following link(s):",
        Event.print " - https://postimg.cc/x",
        Event.system "xdg-open \"https://postimg.cc/x\""] : List Event) :=
  ⟨rfl, C8_open_first_link sysA upOne argsOpen "xdg-open" "https://postimg.cc/x" [] _
      rfl rfl (by decide) rfl⟩

end Upload
